import Mathlib

/-!
# Stack-limit probe of `src/arch/windows.c`

A shallow embedding of the three routines of `windows.c`
(`__stacker_black_box`, `__stacker_get_current_fiber`,
`__stacker_get_stack_limit`) and of the static helper `calc_stack_limit`,
followed by the properties of the specification that concern them.

Machine integers are natural numbers; every `size_t` addition of the source
is reduced modulo `2 ^ size_t_bits`.  Stateful routines take the calling
thread's state and return their result together with the state they leave.
-/

namespace Stacker

/-! ## Build targets and `size_t` -/

/-- The MSVC targets the file can be compiled for.  `_M_X64` and `_M_IX86`
are the two the preprocessor conditionals of the source name; the other two
compile `calc_stack_limit` but get no `__stacker_get_stack_limit`. -/
inductive Arch where
  | x64
  | ix86
  | arm
  | arm64
  deriving DecidableEq, Repr

/-- Value of `sizeof(void *)` on each target. -/
def sizeof_void_ptr : Arch → Nat
  | .x64 => 8
  | .ix86 => 4
  | .arm => 4
  | .arm64 => 8

/-- Width in bits of `size_t`; on every target it is as wide as a pointer. -/
def size_t_bits (a : Arch) : Nat := 8 * sizeof_void_ptr a

/-- Number of `size_t` values: arithmetic on `size_t` is modulo this. -/
def SIZE_MOD (a : Arch) : Nat := 2 ^ size_t_bits a

/-- Largest `size_t` value. -/
def SIZE_MAX (a : Arch) : Nat := SIZE_MOD a - 1

/-- The C operator `+` on two `size_t` operands (unsigned, wraps around). -/
def size_add (a : Arch) (x y : Nat) : Nat := (x + y) % SIZE_MOD a

/-- Modelled from the spec: the `max` macro comes from `windows.h`, which is
not part of the sources; the specification uses it as the larger of its two
arguments.  It is written here as the conditional the macro expands to,
`(((a) > (b)) ? (a) : (b))`, on unsigned operands. -/
def max (a b : Nat) : Nat := if a > b then a else b

/-! ## Thread state -/

/-- State of the calling thread as far as the routines can observe it: the
thread-environment data reachable through the `gs` segment (x64) and through
the `fs` segment (x86), each a map from byte offset to the value stored
there, and the lightweight execution context (fiber) the operating system's
scheduler has active on the thread. -/
structure ThreadState where
  gs : Nat → Nat
  fs : Nat → Nat
  fiber : Nat

/-- Modelled from the spec: `GetCurrentFiber` belongs to the Windows headers,
not to the sources.  The specification describes the execution-context handle
as a pointer-sized identity of the fiber currently executing on the thread,
owned by the operating system's scheduler and only read here, with no side
effects: the call reports the active fiber and leaves the thread state as it
is. -/
def spec_GetCurrentFiber (s : ThreadState) : Nat × ThreadState := (s.fiber, s)

/-- Modelled from the spec: the compiler intrinsic `__readgsqword` is not part
of the sources; it reads the 64-bit value the thread-environment data holds at
a fixed offset from `gs`. -/
def __readgsqword (s : ThreadState) (offset : Nat) : Nat := s.gs offset % 2 ^ 64

/-- Modelled from the spec: the compiler intrinsic `__readfsdword` is not part
of the sources; it reads the 32-bit value the thread-environment data holds at
a fixed offset from `fs`. -/
def __readfsdword (s : ThreadState) (offset : Nat) : Nat := s.fs offset % 2 ^ 32

/-! ## The routines of `windows.c` -/

/-- `void __stacker_black_box() {}`: the body is empty, the state is handed
back as it came. -/
def __stacker_black_box (s : ThreadState) : Unit × ThreadState := ((), s)

/-- `PVOID __stacker_get_current_fiber() { return GetCurrentFiber(); }`.
`GetCurrentFiber` belongs to the Windows headers and is a parameter, an
operation on the thread state like the routines themselves; the body makes
that one call and returns what it returns. -/
def __stacker_get_current_fiber (GetCurrentFiber : ThreadState → Nat × ThreadState)
    (s : ThreadState) : Nat × ThreadState :=
  GetCurrentFiber s

/-- `calc_stack_limit`, lines 9-13:
`stack_low + max(stack_guarantee, sizeof(void *) == 4 ? 0x1000 : 0x2000) + 0x1000`
with both additions in `size_t`. -/
def calc_stack_limit (a : Arch) (stack_low stack_guarantee : Nat) : Nat :=
  size_add a
    (size_add a stack_low
      (max stack_guarantee (if sizeof_void_ptr a == 4 then 0x1000 else 0x2000)))
    0x1000

/-- `__stacker_get_stack_limit` as compiled under `_M_X64`, lines 16-19. -/
def __stacker_get_stack_limit_x64 (s : ThreadState) : Nat × ThreadState :=
  (calc_stack_limit .x64 (__readgsqword s 0x1478) (__readgsqword s 0x1748), s)

/-- `__stacker_get_stack_limit` as compiled under `_M_IX86`, lines 23-26. -/
def __stacker_get_stack_limit_ix86 (s : ThreadState) : Nat × ThreadState :=
  (calc_stack_limit .ix86 (__readfsdword s 0xE0C) (__readfsdword s 0xF78), s)

/-- `__stacker_get_stack_limit` after preprocessing: the x64 body under
`_M_X64`, the x86 body under `_M_IX86`, and no definition elsewhere. -/
def __stacker_get_stack_limit (a : Arch) (s : ThreadState) : Option (Nat × ThreadState) :=
  match a with
  | .x64 => some (__stacker_get_stack_limit_x64 s)
  | .ix86 => some (__stacker_get_stack_limit_ix86 s)
  | .arm => none
  | .arm64 => none

/-- State left by `n` consecutive calls of `__stacker_black_box`. -/
def black_box_calls : Nat → ThreadState → ThreadState
  | 0, s => s
  | n + 1, s => black_box_calls n (__stacker_black_box s).2

/-! ## What a thread does between two probes -/

/-- One thing that happens on the calling thread: a call of one of the three
routines of `windows.c`, or a cooperative context switch, after which the
thread runs another fiber with the thread state `next`. -/
inductive Event where
  | black_box
  | get_current_fiber
  | get_stack_limit
  | context_switch (next : ThreadState)

/-- Whether an event is a context switch. -/
def Event.is_context_switch : Event → Bool
  | .context_switch _ => true
  | _ => false

/-- Whether a sequence of events is free of context switches. -/
def no_context_switch (events : List Event) : Bool :=
  events.all (fun e => !e.is_context_switch)

/-- Thread state after one event.  A routine call leaves the state the
routine returns (on a target without `__stacker_get_stack_limit` there is no
such call to make); a context switch, the work of the operating system's
scheduler, puts the thread in the state of the fiber switched to. -/
def step (a : Arch) (e : Event) (s : ThreadState) : ThreadState :=
  match e with
  | .black_box => (__stacker_black_box s).2
  | .get_current_fiber => (__stacker_get_current_fiber spec_GetCurrentFiber s).2
  | .get_stack_limit =>
    match __stacker_get_stack_limit a s with
    | some r => r.2
    | none => s
  | .context_switch next => next

/-- Thread state after a sequence of events, first event first. -/
def run (a : Arch) : List Event → ThreadState → ThreadState
  | [], s => s
  | e :: es, s => run a es (step a e s)

/-! ## Quantities named by the specification -/

/-- The specification's `platform_minimum_guarantee`: `0x1000` on a
4-byte-pointer build and `0x2000` otherwise. -/
def spec_platform_minimum (a : Arch) : Nat :=
  if sizeof_void_ptr a = 4 then 0x1000 else 0x2000

/-- The specification's `guard_page_size`. -/
def spec_guard_page_size : Nat := 0x1000

/-! ## Sample thread states -/

/-- A sample thread state: stack low address `0x10000000`
and guarantee `0x4000` at the offsets read, zero elsewhere. -/
def witness_state_one : ThreadState where
  gs := fun off => if off = 0x1478 then 0x10000000 else if off = 0x1748 then 0x4000 else 0
  fs := fun off => if off = 0xE0C then 0x400000 else if off = 0xF78 then 0 else 0
  fiber := 0x7000

/-- A second sample thread state: equal to the first at the four
offsets read, different everywhere else and running another fiber. -/
def witness_state_two : ThreadState where
  gs := fun off => if off = 0x1478 then 0x10000000 else if off = 0x1748 then 0x4000 else 7
  fs := fun off => if off = 0xE0C then 0x400000 else if off = 0xF78 then 0 else 9
  fiber := 0x9000

/-! ## Auxiliary facts -/

theorem SIZE_MOD_pos (a : Arch) : 0 < SIZE_MOD a := by
  unfold SIZE_MOD
  exact Nat.pos_pow_of_pos _ (by decide)

theorem size_add_of_le (a : Arch) (x y : Nat) (h : x + y ≤ SIZE_MAX a) :
    size_add a x y = x + y := by
  have hpos := SIZE_MOD_pos a
  unfold SIZE_MAX at h
  unfold size_add
  exact Nat.mod_eq_of_lt (by omega)

theorem max_eq_Max (a b : Nat) : max a b = Max.max a b := by
  unfold max
  split <;> omega

theorem inline_minimum_eq (a : Arch) :
    (if sizeof_void_ptr a == 4 then 0x1000 else 0x2000) = spec_platform_minimum a := by
  cases a <;> rfl

theorem spec_platform_minimum_pos (a : Arch) : 0x1000 ≤ spec_platform_minimum a := by
  cases a <;> decide

/-- The two wrapping additions of `calc_stack_limit` amount to one reduction
of the unbounded sum. -/
theorem calc_stack_limit_mod (a : Arch) (stack_low stack_guarantee : Nat) :
    calc_stack_limit a stack_low stack_guarantee
      = (stack_low + Max.max stack_guarantee (spec_platform_minimum a) + 0x1000)
          % SIZE_MOD a := by
  unfold calc_stack_limit size_add
  rw [inline_minimum_eq, max_eq_Max]
  exact Nat.mod_add_mod _ _ _

/-- Where the unbounded sum fits in `size_t`, no addition wraps. -/
theorem calc_stack_limit_exact (a : Arch) (stack_low stack_guarantee : Nat)
    (h : stack_low + Max.max stack_guarantee (spec_platform_minimum a) + 0x1000
          ≤ SIZE_MAX a) :
    calc_stack_limit a stack_low stack_guarantee
      = stack_low + Max.max stack_guarantee (spec_platform_minimum a) + 0x1000 := by
  have hpos := SIZE_MOD_pos a
  rw [calc_stack_limit_mod]
  unfold SIZE_MAX at h
  exact Nat.mod_eq_of_lt (by omega)

theorem black_box_calls_eq (n : Nat) (s : ThreadState) : black_box_calls n s = s := by
  induction n generalizing s with
  | zero => rfl
  | succ n ih =>
    show black_box_calls n (__stacker_black_box s).2 = s
    rw [ih]
    rfl

theorem step_of_no_switch (a : Arch) (e : Event) (s : ThreadState)
    (h : e.is_context_switch = false) : step a e s = s := by
  cases e with
  | black_box => rfl
  | get_current_fiber => rfl
  | get_stack_limit => cases a <;> rfl
  | context_switch next => simp [Event.is_context_switch] at h

theorem run_of_no_switch (a : Arch) (events : List Event) (s : ThreadState)
    (h : no_context_switch events = true) : run a events s = s := by
  induction events generalizing s with
  | nil => rfl
  | cons e es ih =>
    simp only [no_context_switch, List.all_cons, Bool.and_eq_true,
      Bool.not_eq_true'] at h
    show run a es (step a e s) = s
    rw [step_of_no_switch a e s h.1]
    exact ih s (by simpa [no_context_switch] using h.2)

/-! ## `calc_stack_limit` -/

/-- C1: for every `stack_low` and every `stack_guarantee`, the value
`calc_stack_limit` returns is `stack_low + max(stack_guarantee,
platform_minimum) + guard_page_size` computed in `size_t`, that is, reduced
modulo the number of `size_t` values, where `guard_page_size = 0x1000` and
`platform_minimum` is `0x1000` when `sizeof(void *)` is 4 and `0x2000`
otherwise.  Where that sum does not exceed the largest `size_t` value the
result is the sum itself. -/
theorem calc_stack_limit_formula (a : Arch) (stack_low stack_guarantee : Nat) :
    calc_stack_limit a stack_low stack_guarantee
        = (stack_low + Max.max stack_guarantee (spec_platform_minimum a)
            + spec_guard_page_size) % SIZE_MOD a
      ∧ spec_guard_page_size = 0x1000
      ∧ spec_platform_minimum a = (if sizeof_void_ptr a = 4 then 0x1000 else 0x2000)
      ∧ (stack_low + Max.max stack_guarantee (spec_platform_minimum a)
            + spec_guard_page_size ≤ SIZE_MAX a →
          calc_stack_limit a stack_low stack_guarantee
            = stack_low + Max.max stack_guarantee (spec_platform_minimum a)
                + spec_guard_page_size) :=
  ⟨calc_stack_limit_mod a stack_low stack_guarantee, rfl, rfl,
    calc_stack_limit_exact a stack_low stack_guarantee⟩

/-- Witness of C1 on a 4-byte-pointer build: low address `0x400000` and
guarantee `0x3000` give `0x400000 + 0x3000 + 0x1000 = 0x404000`. -/
theorem calc_stack_limit_formula_witness :
    0x400000 + Max.max 0x3000 (spec_platform_minimum .ix86) + spec_guard_page_size
        ≤ SIZE_MAX .ix86
      ∧ calc_stack_limit .ix86 0x400000 0x3000 = 0x404000 :=
  ⟨by decide, (calc_stack_limit_formula .ix86 0x400000 0x3000).2.2.2 (by decide)⟩

/-- C2: when `stack_guarantee` does not exceed the platform minimum, the
result is built from the platform minimum and not from the configured
guarantee: `stack_low + 0x2000 + 0x1000` on an 8-byte-pointer build and
`stack_low + 0x1000 + 0x1000` on a 4-byte-pointer build, the sums taken in
`size_t`. -/
theorem calc_stack_limit_uses_minimum (a : Arch) (stack_low stack_guarantee : Nat)
    (h : stack_guarantee ≤ spec_platform_minimum a) :
    (sizeof_void_ptr a = 8 →
        calc_stack_limit a stack_low stack_guarantee
          = (stack_low + 0x2000 + 0x1000) % 2 ^ 64)
      ∧ (sizeof_void_ptr a = 4 →
        calc_stack_limit a stack_low stack_guarantee
          = (stack_low + 0x1000 + 0x1000) % 2 ^ 32) := by
  rw [calc_stack_limit_mod, Nat.max_eq_right h]
  cases a <;> simp [sizeof_void_ptr, spec_platform_minimum, SIZE_MOD, size_t_bits]

/-- Witness of C2 at the specification's concrete case: `stack_low =
0x1000_0000`, guarantee `0`, 8-byte pointers, result `0x1000_3000`. -/
theorem calc_stack_limit_uses_minimum_witness :
    0 ≤ spec_platform_minimum .x64
      ∧ sizeof_void_ptr .x64 = 8
      ∧ calc_stack_limit .x64 0x10000000 0 = 0x10003000 :=
  ⟨by decide, rfl,
    (calc_stack_limit_uses_minimum .x64 0x10000000 0 (by decide)).1 rfl⟩

/-- C3: when `stack_guarantee` is strictly greater than the platform minimum,
the result is built from the configured guarantee: `stack_low +
stack_guarantee + 0x1000`, the sum taken in `size_t`. -/
theorem calc_stack_limit_uses_guarantee (a : Arch) (stack_low stack_guarantee : Nat)
    (h : spec_platform_minimum a < stack_guarantee) :
    calc_stack_limit a stack_low stack_guarantee
      = (stack_low + stack_guarantee + 0x1000) % SIZE_MOD a := by
  rw [calc_stack_limit_mod, Nat.max_eq_left (Nat.le_of_lt h)]

/-- Witness of C3 at the specification's concrete case: `stack_low =
0x2000_0000`, guarantee `0x4000`, 8-byte pointers, result `0x2000_5000`. -/
theorem calc_stack_limit_uses_guarantee_witness :
    spec_platform_minimum .x64 < 0x4000
      ∧ calc_stack_limit .x64 0x20000000 0x4000 = 0x20005000 :=
  ⟨by decide, calc_stack_limit_uses_guarantee .x64 0x20000000 0x4000 (by decide)⟩

/-- C4, as stated, fails: on an 8-byte-pointer build with guarantee `0`, the
low addresses `0` and `0xFFFF_FFFF_FFFF_D000` are in increasing order, yet the
first gives `0x3000` and the second, whose sum wraps around, gives `0`. -/
theorem calc_stack_limit_not_monotone :
    (0 : Nat) ≤ 0xFFFFFFFFFFFFD000
      ∧ 0xFFFFFFFFFFFFD000 ≤ SIZE_MAX .x64
      ∧ calc_stack_limit .x64 0 0 = 0x3000
      ∧ calc_stack_limit .x64 0xFFFFFFFFFFFFD000 0 = 0
      ∧ ¬ (calc_stack_limit .x64 0 0 ≤ calc_stack_limit .x64 0xFFFFFFFFFFFFD000 0) := by
  decide

/-- C4, amended: for `stack_low ≤ stack_low2` such that the sum for the larger
address, `stack_low2 + max(stack_guarantee, platform_minimum) + 0x1000`, does
not exceed the largest `size_t` value, the limit for `stack_low` is at most
the limit for `stack_low2`. -/
theorem calc_stack_limit_monotone (a : Arch) (stack_guarantee stack_low stack_low2 : Nat)
    (hle : stack_low ≤ stack_low2)
    (hfit : stack_low2 + Max.max stack_guarantee (spec_platform_minimum a) + 0x1000
              ≤ SIZE_MAX a) :
    calc_stack_limit a stack_low stack_guarantee
      ≤ calc_stack_limit a stack_low2 stack_guarantee := by
  rw [calc_stack_limit_exact a stack_low2 stack_guarantee hfit,
    calc_stack_limit_exact a stack_low stack_guarantee (by omega)]
  omega

/-- Witness of the amended C4 on an 8-byte-pointer build. -/
theorem calc_stack_limit_monotone_witness :
    (0x10000000 : Nat) ≤ 0x10008000
      ∧ 0x10008000 + Max.max 0x4000 (spec_platform_minimum .x64) + 0x1000 ≤ SIZE_MAX .x64
      ∧ calc_stack_limit .x64 0x10000000 0x4000 ≤ calc_stack_limit .x64 0x10008000 0x4000 :=
  ⟨by decide, by decide,
    calc_stack_limit_monotone .x64 0x4000 0x10000000 0x10008000 (by decide) (by decide)⟩

/-- C5: raising the low address by `k` raises the result by exactly `k`, both
additions being `size_t` additions:
`calc_stack_limit(stack_low + k, g) = calc_stack_limit(stack_low, g) + k`. -/
theorem calc_stack_limit_shift (a : Arch) (stack_low k stack_guarantee : Nat) :
    calc_stack_limit a (size_add a stack_low k) stack_guarantee
      = size_add a (calc_stack_limit a stack_low stack_guarantee) k := by
  rw [calc_stack_limit_mod, calc_stack_limit_mod]
  unfold size_add
  rw [Nat.mod_add_mod, Nat.add_assoc, Nat.mod_add_mod, Nat.add_assoc]
  congr 1
  omega

/-- C9: when `stack_low + max(stack_guarantee, platform_minimum) + 0x1000`
does not exceed the largest `size_t` value, the limit is at least `stack_low +
platform_minimum + 0x1000`, hence strictly above `stack_low`: at least
`0x3000` above it with 8-byte pointers and `0x2000` with 4-byte pointers. -/
theorem calc_stack_limit_above_guard (a : Arch) (stack_low stack_guarantee : Nat)
    (hfit : stack_low + Max.max stack_guarantee (spec_platform_minimum a) + 0x1000
              ≤ SIZE_MAX a) :
    stack_low + spec_platform_minimum a + 0x1000
        ≤ calc_stack_limit a stack_low stack_guarantee
      ∧ stack_low < calc_stack_limit a stack_low stack_guarantee
      ∧ (sizeof_void_ptr a = 8 →
          stack_low + 0x3000 ≤ calc_stack_limit a stack_low stack_guarantee)
      ∧ (sizeof_void_ptr a = 4 →
          stack_low + 0x2000 ≤ calc_stack_limit a stack_low stack_guarantee) := by
  rw [calc_stack_limit_exact a stack_low stack_guarantee hfit]
  have hmin := spec_platform_minimum_pos a
  refine ⟨by omega, by omega, ?_, ?_⟩
  · intro h8
    have : spec_platform_minimum a = 0x2000 := by
      cases a <;> simp_all [sizeof_void_ptr, spec_platform_minimum]
    omega
  · intro _
    omega

/-- Witness of C9 on an 8-byte-pointer build, guarantee `0`. -/
theorem calc_stack_limit_above_guard_witness :
    0x10000000 + Max.max 0 (spec_platform_minimum .x64) + 0x1000 ≤ SIZE_MAX .x64
      ∧ 0x10000000 + 0x3000 ≤ calc_stack_limit .x64 0x10000000 0 :=
  ⟨by decide, (calc_stack_limit_above_guard .x64 0x10000000 0 (by decide)).2.2.1 rfl⟩

/-- C10: for `stack_guarantee ≤ stack_guarantee2` such that `stack_low +
max(stack_guarantee2, platform_minimum) + 0x1000` does not exceed the largest
`size_t` value, the limit for `stack_guarantee` is at most the limit for
`stack_guarantee2`, and the two are equal whenever `stack_guarantee2` does not
exceed the platform minimum. -/
theorem calc_stack_limit_guarantee_monotone (a : Arch)
    (stack_low stack_guarantee stack_guarantee2 : Nat)
    (hle : stack_guarantee ≤ stack_guarantee2)
    (hfit : stack_low + Max.max stack_guarantee2 (spec_platform_minimum a) + 0x1000
              ≤ SIZE_MAX a) :
    calc_stack_limit a stack_low stack_guarantee
        ≤ calc_stack_limit a stack_low stack_guarantee2
      ∧ (stack_guarantee2 ≤ spec_platform_minimum a →
          calc_stack_limit a stack_low stack_guarantee
            = calc_stack_limit a stack_low stack_guarantee2) := by
  rw [calc_stack_limit_exact a stack_low stack_guarantee2 hfit,
    calc_stack_limit_exact a stack_low stack_guarantee (by omega)]
  constructor
  · omega
  · intro h
    omega

/-- Witness of C10 on a 4-byte-pointer build: guarantees `0x800 ≤ 0x1000`,
both within the platform minimum, give the same limit. -/
theorem calc_stack_limit_guarantee_monotone_witness :
    (0x800 : Nat) ≤ 0x1000
      ∧ 0x400000 + Max.max 0x1000 (spec_platform_minimum .ix86) + 0x1000 ≤ SIZE_MAX .ix86
      ∧ 0x1000 ≤ spec_platform_minimum .ix86
      ∧ calc_stack_limit .ix86 0x400000 0x800 = calc_stack_limit .ix86 0x400000 0x1000 :=
  ⟨by decide, by decide, by decide,
    (calc_stack_limit_guarantee_monotone .ix86 0x400000 0x800 0x1000
      (by decide) (by decide)).2 (by decide)⟩

/-! ## The routines that touch the thread state -/

/-- C6: for every thread state, a call of `__stacker_get_current_fiber`
returns exactly the handle `GetCurrentFiber` reports for the calling thread,
the fiber active on it, and changes nothing in the thread state; whatever
calls of the three routines the thread makes next, as long as no context
switch is among them, a second call of `__stacker_get_current_fiber` sees the
same state and returns an equal handle. -/
theorem get_current_fiber_stable (a : Arch) (s : ThreadState) (events : List Event)
    (h : no_context_switch events = true) :
    (__stacker_get_current_fiber spec_GetCurrentFiber s).1 = (spec_GetCurrentFiber s).1
      ∧ (__stacker_get_current_fiber spec_GetCurrentFiber s).1 = s.fiber
      ∧ (__stacker_get_current_fiber spec_GetCurrentFiber s).2 = s
      ∧ run a events (__stacker_get_current_fiber spec_GetCurrentFiber s).2 = s
      ∧ (__stacker_get_current_fiber spec_GetCurrentFiber
            (run a events (__stacker_get_current_fiber spec_GetCurrentFiber s).2)).1
          = (__stacker_get_current_fiber spec_GetCurrentFiber s).1 := by
  have hrun : run a events (__stacker_get_current_fiber spec_GetCurrentFiber s).2 = s :=
    run_of_no_switch a events s h
  refine ⟨rfl, rfl, rfl, hrun, ?_⟩
  rw [hrun]

/-- Witness of C6 on x64: a second call made after calls of the other
routines returns the handle `0x7000` again, whereas after a context switch to
the fiber `0x9000` the call returns `0x9000`. -/
theorem get_current_fiber_stable_witness :
    no_context_switch [Event.black_box, Event.get_stack_limit, Event.black_box] = true
      ∧ (__stacker_get_current_fiber spec_GetCurrentFiber witness_state_one).1 = 0x7000
      ∧ (__stacker_get_current_fiber spec_GetCurrentFiber
            (run .x64 [Event.black_box, Event.get_stack_limit, Event.black_box]
              (__stacker_get_current_fiber spec_GetCurrentFiber witness_state_one).2)).1
          = 0x7000
      ∧ no_context_switch [Event.context_switch witness_state_two] = false
      ∧ (__stacker_get_current_fiber spec_GetCurrentFiber
            (run .x64 [Event.context_switch witness_state_two]
              (__stacker_get_current_fiber spec_GetCurrentFiber witness_state_one).2)).1
          = 0x9000 :=
  ⟨rfl, rfl,
    (get_current_fiber_stable .x64 witness_state_one
      [Event.black_box, Event.get_stack_limit, Event.black_box] rfl).2.2.2.2,
    rfl, rfl⟩

/-- C7: `__stacker_black_box` is a no-op on the program state: one call
returns the state it was given, `n` calls in a row leave the state unchanged,
and `__stacker_get_stack_limit` and `__stacker_get_current_fiber` give after
those calls what they give without them. -/
theorem black_box_no_op (a : Arch) (GetCurrentFiber : ThreadState → Nat × ThreadState)
    (s : ThreadState) (n : Nat) :
    __stacker_black_box s = ((), s)
      ∧ black_box_calls n s = s
      ∧ __stacker_get_stack_limit a (black_box_calls n s) = __stacker_get_stack_limit a s
      ∧ __stacker_get_current_fiber GetCurrentFiber (black_box_calls n s)
          = __stacker_get_current_fiber GetCurrentFiber s := by
  rw [black_box_calls_eq]
  exact ⟨rfl, rfl, rfl, rfl⟩

/-- C8: `__stacker_get_stack_limit` hands two values of the thread-environment
data to `calc_stack_limit`, the stack low address first and the overflow
guarantee second: the values at `gs` offsets `0x1478` and `0x1748` on x64, at
`fs` offsets `0xE0C` and `0xF78` on x86.  Two thread states that agree at the
two offsets read on a target get the same result there. -/
theorem get_stack_limit_reads (s t : ThreadState) :
    __stacker_get_stack_limit .x64 s
        = some (calc_stack_limit .x64 (__readgsqword s 0x1478) (__readgsqword s 0x1748), s)
      ∧ __stacker_get_stack_limit .ix86 s
        = some (calc_stack_limit .ix86 (__readfsdword s 0xE0C) (__readfsdword s 0xF78), s)
      ∧ (s.gs 0x1478 = t.gs 0x1478 → s.gs 0x1748 = t.gs 0x1748 →
          (__stacker_get_stack_limit_x64 s).1 = (__stacker_get_stack_limit_x64 t).1)
      ∧ (s.fs 0xE0C = t.fs 0xE0C → s.fs 0xF78 = t.fs 0xF78 →
          (__stacker_get_stack_limit_ix86 s).1 = (__stacker_get_stack_limit_ix86 t).1) := by
  refine ⟨rfl, rfl, ?_, ?_⟩
  · intro h1 h2
    simp only [__stacker_get_stack_limit_x64, __readgsqword, h1, h2]
  · intro h1 h2
    simp only [__stacker_get_stack_limit_ix86, __readfsdword, h1, h2]

/-- Witness of C8: two thread states that differ away from the offsets read
give the limit `0x10005000` on x64 and `0x402000` on x86. -/
theorem get_stack_limit_reads_witness :
    witness_state_one.gs 0 ≠ witness_state_two.gs 0
      ∧ witness_state_one.gs 0x1478 = witness_state_two.gs 0x1478
      ∧ witness_state_one.gs 0x1748 = witness_state_two.gs 0x1748
      ∧ witness_state_one.fs 0xE0C = witness_state_two.fs 0xE0C
      ∧ witness_state_one.fs 0xF78 = witness_state_two.fs 0xF78
      ∧ (__stacker_get_stack_limit_x64 witness_state_one).1 = 0x10005000
      ∧ (__stacker_get_stack_limit_x64 witness_state_one).1
          = (__stacker_get_stack_limit_x64 witness_state_two).1
      ∧ (__stacker_get_stack_limit_ix86 witness_state_one).1 = 0x402000
      ∧ (__stacker_get_stack_limit_ix86 witness_state_one).1
          = (__stacker_get_stack_limit_ix86 witness_state_two).1 :=
  ⟨by decide, rfl, rfl, rfl, rfl, by decide,
    (get_stack_limit_reads witness_state_one witness_state_two).2.2.1 rfl rfl,
    by decide,
    (get_stack_limit_reads witness_state_one witness_state_two).2.2.2 rfl rfl⟩

end Stacker
